import Mathlib

/-!
Shallow embedding of the Windows netboot / DHCP client code
(netboot netconf, client4 exchange) and proofs of the specification
claims about it.

Conventions of the embedding:
* Go byte slices (`net.IP`, `net.IPMask`) become `List Nat` with each
  element a byte value; a nil slice where the code distinguishes nil is
  an `Option`.
* The DHCP message codec is external to the verified core (the spec lists
  it as an external collaborator), so a reply message is embedded as the
  record of its accessor results: each field holds exactly what the
  corresponding option accessor would return on that reply.
* Fallible Go functions returning `(*T, error)` are embedded as the pair
  `Option T × Option E`, mirroring the two return values verbatim, so
  that atomicity (never both populated) is a provable property rather
  than a typing artifact.
* `time.Duration` lifetimes are modelled as `Nat` (the code only copies
  them around, never computes with them).
-/

namespace DhcpSpec

/-! ## Model of the Go `net` standard-library helpers used by the code -/

/-- The 12-byte head of a 4-in-6 mapped IPv6 address (Go `v4InV6Prefix`). -/
def v4InV6Pfx : List Nat := [0, 0, 0, 0, 0, 0, 0, 0, 0, 0, 255, 255]

/-- Go `net.IPv4zero` = `net.IPv4(0,0,0,0)`: a 16-byte 4-in-6 form of 0.0.0.0. -/
def IPv4zero : List Nat := v4InV6Pfx ++ [0, 0, 0, 0]

/-- Go `net.IP.Equal`: equal byte-for-byte at equal lengths, and a 4-byte
address equals the 16-byte 4-in-6 mapped form of the same address. -/
def ipEqual (a b : List Nat) : Bool :=
  if a.length = b.length then a = b
  else if a.length = 4 && b.length = 16 then
    b.take 12 = v4InV6Pfx && b.drop 12 = a
  else if a.length = 16 && b.length = 4 then
    a.take 12 = v4InV6Pfx && a.drop 12 = b
  else false

/-- Count the leading one bits of a byte, returning the count and the byte
shifted past them (Go's inner loop in `simpleMaskLength`); `fuel` is the
8 bit positions of a byte. -/
def byteLeadingOnes : Nat → Nat → Nat × Nat
  | _, 0 => (0, 0)
  | 0, v => (0, v)
  | fuel + 1, v =>
    if 128 ≤ v then
      let p := byteLeadingOnes fuel (v * 2 % 256)
      (p.1 + 1, p.2)
    else (0, v)

/-- Go `simpleMaskLength`: the prefix length of a contiguous mask, `none`
for a non-contiguous mask (Go returns -1). -/
def simpleMaskLength : List Nat → Option Nat
  | [] => some 0
  | b :: rest =>
    if b = 255 then (simpleMaskLength rest).map (8 + ·)
    else
      let p := byteLeadingOnes 8 b
      if p.2 ≠ 0 then none
      else if rest.all (· = 0) then some p.1
      else none

/-- Go `net.IPMask.Size`: `(ones, bits)`, or `(0, 0)` for a non-contiguous
mask. -/
def maskSize (m : List Nat) : Nat × Nat :=
  match simpleMaskLength m with
  | none => (0, 0)
  | some ones => (ones, 8 * m.length)

/-- The byte construction loop of Go `net.CIDRMask`: `l` bytes holding
`ones` leading one bits. -/
def maskBytes : Nat → Nat → List Nat
  | 0, _ => []
  | l + 1, n =>
    if 8 ≤ n then 255 :: maskBytes l (n - 8)
    else (255 - 255 / 2 ^ n) :: maskBytes l 0

/-- Go `net.CIDRMask ones bits` (`none` is Go's nil result). -/
def CIDRMask (ones bits : Nat) : Option (List Nat) :=
  if bits ≠ 32 && bits ≠ 128 then none
  else if bits < ones then none
  else some (maskBytes (bits / 8) ones)

/-- The `net.CIDRMask(128, 128)` constant used for v6 addresses. -/
def cidrMask128 : List Nat := (CIDRMask 128 128).getD []

/-! ## The netboot data model (`AddrConf`, `NetConf`) -/

/-- Go `net.IPNet`: an address together with its mask. -/
structure IPNet where
  ip : List Nat
  mask : List Nat
  deriving DecidableEq, Repr

/-- `AddrConf` holds a single IP address configuration for a NIC. -/
structure AddrConf where
  ipNet : IPNet
  preferredLifetime : Nat
  validLifetime : Nat
  deriving DecidableEq, Repr

/-- `NetConf` holds multiple IP configurations for a NIC, plus DNS, router
and NTP configuration. -/
structure NetConf where
  addresses : List AddrConf := []
  dnsServers : List (List Nat) := []
  dnsSearchList : List String := []
  routers : List (List Nat) := []
  ntpServers : List (List Nat) := []
  deriving DecidableEq, Repr

/-- One constructor per `errors.New` site of the netboot extraction code,
named after the Go error message. -/
inductive NetbootError where
  /-- "ip address is null (0.0.0.0)" -/
  | ipNull
  /-- "no netmask option in response packet" -/
  | noNetmask
  /-- "netmask extracted from OptSubnetMask options is null" -/
  | nullNetmask
  /-- "dns search list is empty" -/
  | emptySearchList
  /-- "no option IA NA found" -/
  | noIANA
  deriving DecidableEq, Repr

/-- The spec's error taxonomy (section 7). -/
inductive ErrClass where
  | missingField
  | missingOption
  | invalidValue
  | timeout
  | transport
  deriving DecidableEq, Repr

/-- Classification of each netboot extraction error into the spec's
taxonomy. -/
def NetbootError.classify : NetbootError → ErrClass
  | .ipNull => .missingField
  | .noNetmask => .missingOption
  | .nullNetmask => .invalidValue
  | .emptySearchList => .invalidValue
  | .noIANA => .missingOption

/-! ## v4 reply and `GetNetConfFromPacketv4` -/

/-- A DHCPv4 reply as seen through the codec's accessors (the codec is an
external collaborator): each field is the result the corresponding
accessor returns on this reply. `yourIPAddr` is the `YourIPAddr` header
field (`none` = nil); `subnetMask` is `SubnetMask()` (`none` = nil);
`leaseTime` is the raw address-lease-time option (`none` = absent), so
that `IPAddressLeaseTime def` below can apply the default; `domainSearch`
is `DomainSearch()` (`none` = nil, `some ls` = present with labels `ls`). -/
structure DHCPv4 where
  yourIPAddr : Option (List Nat)
  subnetMask : Option (List Nat)
  leaseTime : Option Nat
  dns : List (List Nat)
  domainSearch : Option (List String)
  routers : List (List Nat)
  ntpServers : List (List Nat)
  deriving DecidableEq, Repr

/-- Accessor `d.IPAddressLeaseTime(def)`: the lease-time option's value,
or the default when the option is absent. -/
def DHCPv4.IPAddressLeaseTime (d : DHCPv4) (dflt : Nat) : Nat :=
  d.leaseTime.getD dflt

/-- `GetNetConfFromPacketv4` extracts network configuration information
from a DHCPv4 reply packet; the result pair mirrors the Go
`(*NetConf, error)` return values. -/
def GetNetConfFromPacketv4 (d : DHCPv4) : Option NetConf × Option NetbootError :=
  match d.yourIPAddr with
  | none => (none, some .ipNull)
  | some ipAddr =>
    if ipEqual ipAddr IPv4zero then (none, some .ipNull)
    else
      match d.subnetMask with
      | none => (none, some .noNetmask)
      | some netmask =>
        if (maskSize netmask).1 = 0 then (none, some .nullNetmask)
        else
          let leaseTime := d.IPAddressLeaseTime 0
          let addrs := [{ ipNet := { ip := ipAddr, mask := netmask },
                          preferredLifetime := 0,
                          validLifetime := leaseTime : AddrConf }]
          match d.domainSearch with
          | some labels =>
            if labels.length = 0 then (none, some .emptySearchList)
            else
              (some { addresses := addrs, dnsServers := d.dns,
                      dnsSearchList := labels, routers := d.routers,
                      ntpServers := d.ntpServers }, none)
          | none =>
            (some { addresses := addrs, dnsServers := d.dns,
                    dnsSearchList := [], routers := d.routers,
                    ntpServers := d.ntpServers }, none)

/-! ## v6 reply and `GetNetConfFromPacketv6` -/

/-- One bound address inside an IA_NA option: the address with its own
preferred and valid lifetimes. -/
structure IAAddress where
  ipv6Addr : List Nat
  preferredLifetime : Nat
  validLifetime : Nat
  deriving DecidableEq, Repr

/-- The IA_NA option as seen through `iana.Options.Addresses()`. -/
structure IANA where
  addresses : List IAAddress
  deriving DecidableEq, Repr

/-- A DHCPv6 reply as seen through the codec's accessors: `iana` is
`Options.OneIANA()` (`none` = nil), `dns` is `Options.DNS()`,
`domainSearchList` is `Options.DomainSearchList()` (`none` = nil,
`some ls` = present with labels `ls`), `ntpServers` is
`Options.NTPServers()`. -/
structure DHCPv6Message where
  iana : Option IANA
  dns : List (List Nat)
  domainSearchList : Option (List String)
  ntpServers : List (List Nat)
  deriving DecidableEq, Repr

/-- `GetNetConfFromPacketv6` extracts network configuration information
from a DHCPv6 reply packet; the result pair mirrors the Go
`(*NetConf, error)` return values. -/
def GetNetConfFromPacketv6 (d : DHCPv6Message) : Option NetConf × Option NetbootError :=
  match d.iana with
  | none => (none, some .noIANA)
  | some iana =>
    let addrs := iana.addresses.map (fun iaaddr =>
      { ipNet := { ip := iaaddr.ipv6Addr, mask := cidrMask128 },
        preferredLifetime := iaaddr.preferredLifetime,
        validLifetime := iaaddr.validLifetime : AddrConf })
    (some { addresses := addrs,
            dnsServers := d.dns,
            dnsSearchList := (d.domainSearchList.getD []),
            routers := [],
            ntpServers := d.ntpServers }, none)

/-! ## `IfUp`: the interface readiness waiter

The loop is embedded against an idealized clock: lookups and flag checks
take no time, so the elapsed time `time.Since(start)` observed at the
start of iteration `k` is exactly `k` sleeps of 100 ms.  `timeout` is in
milliseconds.  The lookup is a function of the iteration index, so the
result of `net.InterfaceByName` may change between polls. -/

/-- A `net.Interface` handle; only the `FlagUp` bit and an identifying
index matter to the code. -/
structure Iface where
  index : Nat
  flagUp : Bool
  deriving DecidableEq, Repr

/-- The two ways `IfUp` fails: an interface lookup error (returned as-is,
immediately fatal) or the "timed out while waiting for ... to come up"
error. -/
inductive IfUpError where
  | lookup (msg : String)
  | timedOut
  deriving DecidableEq, Repr

/-- The polling loop of `IfUp`, with the iteration counter `k` standing
for elapsed time `k * 100` ms; `fuel` only ensures termination and is
chosen large enough (see `IfUp`) never to be the binding constraint. -/
def ifUpAux (lookup : Nat → Except String Iface) (timeout : Nat) :
    Nat → Nat → Except IfUpError Iface
  | 0, _ => .error .timedOut
  | fuel + 1, k =>
    if k * 100 < timeout then
      match lookup k with
      | .error e => .error (.lookup e)
      | .ok iface =>
        if iface.flagUp then .ok iface
        else ifUpAux lookup timeout fuel (k + 1)
    else .error .timedOut

/-- `IfUp` waits for the named interface to come up until `timeout`
(milliseconds) expires, polling every 100 ms.  Since each iteration
advances `k * 100` by 100, `timeout / 100 + 1` iterations always reach
the loop's own exit condition before the fuel runs out. -/
def IfUp (lookup : Nat → Except String Iface) (timeout : Nat) : Except IfUpError Iface :=
  ifUpAux lookup timeout (timeout / 100 + 1) 0

/-! ## The client4 exchange (`Client.Exchange`, `Client.sendReceive`)

The transport and codec are external; a received datagram is embedded as
what `dhcpv4.FromBytes` yields on it: `none` for bytes that fail to
parse, `some m` for a parsed message.  A receive stream is the finite
sequence of datagrams the transport delivers before the blocking read
fails — at the latest when the read deadline elapses. -/

/-- Go `dhcpv4.OpcodeBootReply`. -/
def OpcodeBootReply : Nat := 2

/-- Go `dhcpv4.MessageTypeNone`, the wildcard message type. -/
def MessageTypeNone : Nat := 0

/-- Go `dhcpv4.MessageTypeDiscover`. -/
def MessageTypeDiscover : Nat := 1

/-- Go `dhcpv4.MessageTypeOffer`. -/
def MessageTypeOffer : Nat := 2

/-- Go `dhcpv4.MessageTypeRequest`. -/
def MessageTypeRequest : Nat := 3

/-- Go `dhcpv4.MessageTypeAck`. -/
def MessageTypeAck : Nat := 5

/-- A DHCPv4 message as seen by the exchange's filter: its transaction
identifier, opcode, and the result of the `MessageType()` accessor. -/
structure Msg where
  transactionID : Nat
  opCode : Nat
  messageType : Nat
  deriving DecidableEq, Repr

/-- Why a blocking read returns an error: the read deadline elapsed, or
some other transport failure. -/
inductive ReadErrKind where
  | deadline
  | transportFailure
  deriving DecidableEq, Repr

/-- What the transport delivers during one receive loop: finitely many
datagrams (each `none` if unparsable), then a read error of kind
`finalErr` — at the latest, the read deadline elapsing. -/
structure RecvStream where
  datagrams : List (Option Msg)
  finalErr : ReadErrKind
  deriving DecidableEq, Repr

/-- The errors `Exchange` and `sendReceive` can return, one constructor
per return site. `recvFailed` wraps the read error ("failed to receive
DHCP response"); note there is no constructor for a parse failure — the
code never turns one into a terminal error. -/
inductive ClientError where
  /-- address setup / ListenUDP failure in `Exchange`'s preamble -/
  | setupFailed
  /-- `NewDiscoveryForInterface` failure -/
  | buildDiscoverFailed
  /-- write-deadline arming or `WriteTo` failure in `sendReceive` -/
  | sendFailed
  /-- `ReadFromUDP` failure, of the given kind -/
  | recvFailed (k : ReadErrKind)
  /-- `NewRequestFromOffer` failure -/
  | buildRequestFailed
  deriving DecidableEq, Repr

/-- The response filter applied to each parsed message: expected
transaction identifier, the reply opcode, and — unless the expected type
is the wildcard `MessageTypeNone` — the expected message type. -/
def accept (r : Msg) (xid mtype : Nat) : Bool :=
  (r.transactionID == xid) && (r.opCode == OpcodeBootReply) &&
    ((mtype == MessageTypeNone) || (r.messageType == mtype))

/-- The inner receive loop of `sendReceive`: datagrams that fail to parse
are logged and skipped; parsed messages are skipped unless the
transaction identifier matches, the opcode is `OpcodeBootReply`, and the
message type matches (when one is expected); when the read errors out,
the wrapped read error is returned. -/
def recvLoop (xid mtype : Nat) : List (Option Msg) → ReadErrKind → Except ClientError Msg
  | [], finalErr => .error (.recvFailed finalErr)
  | d :: rest, finalErr =>
    match d with
    | none => recvLoop xid mtype rest finalErr
    | some r =>
      if r.transactionID ≠ xid then recvLoop xid mtype rest finalErr
      else if r.opCode ≠ OpcodeBootReply then recvLoop xid mtype rest finalErr
      else if mtype ≠ MessageTypeNone ∧ r.messageType ≠ mtype then
        recvLoop xid mtype rest finalErr
      else .ok r

/-- `Client.sendReceive`: arm the write deadline and send the packet
(`sendPhase = none` when both succeed), then run the receive loop over
what the transport delivers. -/
def sendReceive (sendPhase : Option ClientError) (stream : RecvStream)
    (packet : Msg) (mtype : Nat) : Except ClientError Msg :=
  match sendPhase with
  | some e => .error e
  | none => recvLoop packet.transactionID mtype stream.datagrams stream.finalErr

/-- The environment one `Exchange` call runs in: the outcome of each
external step (address setup, the two message builders) and what the
transport does during each of the two send/receive steps. -/
structure ExchangeEnv where
  setup : Option ClientError
  discoverResult : Except ClientError Msg
  offerSendPhase : Option ClientError
  offerStream : RecvStream
  requestResult : Msg → Except ClientError Msg
  ackSendPhase : Option ClientError
  ackStream : RecvStream

/-- `Client.Exchange`: the full DORA transaction.  Returns the
conversation so far together with the error of the step that failed, or
the four-message conversation and no error. -/
def Exchange (env : ExchangeEnv) : List Msg × Option ClientError :=
  match env.setup with
  | some e => ([], some e)
  | none =>
    match env.discoverResult with
    | .error e => ([], some e)
    | .ok discover =>
      match sendReceive env.offerSendPhase env.offerStream discover MessageTypeOffer with
      | .error e => ([discover], some e)
      | .ok offer =>
        match env.requestResult offer with
        | .error e => ([discover, offer], some e)
        | .ok request =>
          match sendReceive env.ackSendPhase env.ackStream request MessageTypeAck with
          | .error e => ([discover, offer, request], some e)
          | .ok ack => ([discover, offer, request, ack], none)

/-! ## Concrete inputs used by the witnesses and counterexamples -/

/-- A v4 reply with YourIPAddress 0.0.0.0 but every other option
well-formed, exercising C4's "regardless of other options". -/
def zeroYourIPReply : DHCPv4 :=
  { yourIPAddr := some [0, 0, 0, 0], subnetMask := some [255, 255, 255, 0],
    leaseTime := some 3600, dns := [[8, 8, 8, 8]],
    domainSearch := none, routers := [[192, 0, 2, 1]],
    ntpServers := [[1, 2, 3, 4]] }

/-- A v4 reply satisfying every condition of claim C1 (YourIPAddress
present and non-zero, subnet mask present with non-zero width, lease time
present) on which extraction nevertheless fails, because the reply also
carries a present-and-empty domain-search option. -/
def c1Cex : DHCPv4 :=
  { yourIPAddr := some [192, 0, 2, 50], subnetMask := some [255, 255, 255, 0],
    leaseTime := some 3600, dns := [[8, 8, 8, 8]],
    domainSearch := some [], routers := [[192, 0, 2, 1]], ntpServers := [] }

/-- The spec's own v4 example reply: YourIP 192.0.2.50, mask /24,
lease 3600, router 192.0.2.1, DNS 8.8.8.8. -/
def specV4Reply : DHCPv4 :=
  { yourIPAddr := some [192, 0, 2, 50], subnetMask := some [255, 255, 255, 0],
    leaseTime := some 3600, dns := [[8, 8, 8, 8]],
    domainSearch := none, routers := [[192, 0, 2, 1]], ntpServers := [] }

/-- A v4 reply exercising C3(1): valid address and netmask, but a
present-and-empty domain-search option. -/
def emptySearchReplyC3 : DHCPv4 :=
  { yourIPAddr := some [192, 0, 2, 50], subnetMask := some [255, 255, 255, 0],
    leaseTime := some 3600, dns := [[8, 8, 8, 8]],
    domainSearch := some [], routers := [[192, 0, 2, 1]], ntpServers := [] }

/-- A v4 reply exercising C3(2): no domain-search option at all. -/
def noSearchReplyC3 : DHCPv4 :=
  { yourIPAddr := some [192, 0, 2, 50], subnetMask := some [255, 255, 255, 0],
    leaseTime := some 3600, dns := [[8, 8, 8, 8]],
    domainSearch := none, routers := [[192, 0, 2, 1]], ntpServers := [] }

/-- A v6 reply exercising C3(3): IA_NA present, domain-search absent. -/
def noSearchReplyC3v6 : DHCPv6Message :=
  { iana := some { addresses := [] }, dns := [],
    domainSearchList := none, ntpServers := [] }

/-- The environment for C6's witness: every external step succeeds, the
Offer arrives, but the Ack step sees only an unparsable datagram, a
foreign transaction identifier, a non-reply opcode and a wrong message
type before its deadline elapses. -/
def c6Env : ExchangeEnv :=
  { setup := none
    discoverResult :=
      .ok { transactionID := 1, opCode := 1, messageType := MessageTypeDiscover }
    offerSendPhase := none
    offerStream :=
      { datagrams :=
          [some { transactionID := 1, opCode := 2, messageType := MessageTypeOffer }]
        finalErr := ReadErrKind.deadline }
    requestResult := fun o =>
      .ok { transactionID := o.transactionID, opCode := 1,
            messageType := MessageTypeRequest }
    ackSendPhase := none
    ackStream :=
      { datagrams :=
          [none,
           some { transactionID := 99, opCode := 2, messageType := MessageTypeAck },
           some { transactionID := 1, opCode := 1, messageType := MessageTypeAck },
           some { transactionID := 1, opCode := 2, messageType := MessageTypeOffer }]
        finalErr := ReadErrKind.deadline } }

end DhcpSpec

namespace DhcpSpec

example : GetNetConfFromPacketv4
    { yourIPAddr := some [192, 0, 2, 50], subnetMask := some [255, 255, 255, 0],
      leaseTime := some 3600, dns := [[8, 8, 8, 8]], domainSearch := none,
      routers := [[192, 0, 2, 1]], ntpServers := [] } =
    (some { addresses := [{ ipNet := { ip := [192, 0, 2, 50], mask := [255, 255, 255, 0] },
                            preferredLifetime := 0, validLifetime := 3600 }],
            dnsServers := [[8, 8, 8, 8]], dnsSearchList := [],
            routers := [[192, 0, 2, 1]], ntpServers := [] }, none) := by decide

example : cidrMask128 = List.replicate 16 255 := by decide

example : maskSize [255, 255, 255, 0] = (24, 32) := by decide

example : ipEqual [0, 0, 0, 0] IPv4zero = true := by decide

example : ipEqual [192, 0, 2, 50] IPv4zero = false := by decide

/-! ## Helper lemmas -/

/-- The v6 per-address mask is the full /128 prefix, sixteen 0xff bytes. -/
theorem cidrMask128_eq : cidrMask128 = List.replicate 16 255 := by decide

/-! ## Claims about the v4 extraction -/

/-- C4: for every v4 reply whose YourIPAddress is absent (nil) or equal to
the all-zero address 0.0.0.0, v4 extraction fails with the
MissingField-class error and produces no NetConf, regardless of what
other options the reply carries. -/
theorem C4_v4_nil_or_zero_yourip_fails (d : DHCPv4)
    (h : d.yourIPAddr = none ∨
      ∃ ip, d.yourIPAddr = some ip ∧ ipEqual ip IPv4zero = true) :
    GetNetConfFromPacketv4 d = (none, some NetbootError.ipNull) ∧
      NetbootError.ipNull.classify = ErrClass.missingField := by
  refine ⟨?_, rfl⟩
  rcases h with h | ⟨ip, hip, hz⟩
  · simp [GetNetConfFromPacketv4, h]
  · simp [GetNetConfFromPacketv4, hip, hz]

theorem C4_witness :
    (zeroYourIPReply.yourIPAddr = none ∨
      ∃ ip, zeroYourIPReply.yourIPAddr = some ip ∧ ipEqual ip IPv4zero = true) ∧
    GetNetConfFromPacketv4 zeroYourIPReply = (none, some NetbootError.ipNull) ∧
      NetbootError.ipNull.classify = ErrClass.missingField :=
  ⟨Or.inr ⟨[0, 0, 0, 0], rfl, by decide⟩,
    C4_v4_nil_or_zero_yourip_fails _ (Or.inr ⟨[0, 0, 0, 0], rfl, by decide⟩)⟩

/-- C5: for every v4 reply with a valid non-zero YourIPAddress, v4
extraction fails with the MissingOption-class error when the subnet-mask
option is absent, and with the InvalidValue-class error when the
subnet-mask option is present but has zero prefix width; in both cases no
NetConf is produced. -/
theorem C5_v4_netmask_errors (d : DHCPv4) (ip : List Nat)
    (hy : d.yourIPAddr = some ip) (hz : ipEqual ip IPv4zero = false) :
    (d.subnetMask = none →
      GetNetConfFromPacketv4 d = (none, some NetbootError.noNetmask) ∧
        NetbootError.noNetmask.classify = ErrClass.missingOption) ∧
    (∀ m, d.subnetMask = some m → (maskSize m).1 = 0 →
      GetNetConfFromPacketv4 d = (none, some NetbootError.nullNetmask) ∧
        NetbootError.nullNetmask.classify = ErrClass.invalidValue) := by
  constructor
  · intro hm
    exact ⟨by simp [GetNetConfFromPacketv4, hy, hz, hm], rfl⟩
  · intro m hm hones
    exact ⟨by simp [GetNetConfFromPacketv4, hy, hz, hm, hones], rfl⟩

theorem C5_witness :
    GetNetConfFromPacketv4
      { yourIPAddr := some [192, 0, 2, 50], subnetMask := none,
        leaseTime := some 3600, dns := [], domainSearch := none,
        routers := [], ntpServers := [] } =
      (none, some NetbootError.noNetmask) ∧
    GetNetConfFromPacketv4
      { yourIPAddr := some [192, 0, 2, 50], subnetMask := some [0, 0, 0, 0],
        leaseTime := some 3600, dns := [], domainSearch := none,
        routers := [], ntpServers := [] } =
      (none, some NetbootError.nullNetmask) :=
  ⟨((C5_v4_netmask_errors _ [192, 0, 2, 50] rfl (by decide)).1 rfl).1,
    ((C5_v4_netmask_errors _ [192, 0, 2, 50] rfl (by decide)).2
      [0, 0, 0, 0] rfl (by decide)).1⟩

/-! ## Claims about the v6 extraction -/

/-- Evaluation of the v6 extraction on a reply whose IA_NA is present. -/
theorem getNetConfFromPacketv6_some (d : DHCPv6Message) (ia : IANA)
    (hia : d.iana = some ia) :
    GetNetConfFromPacketv6 d =
      (some { addresses := ia.addresses.map (fun a =>
                            { ipNet := { ip := a.ipv6Addr, mask := cidrMask128 },
                              preferredLifetime := a.preferredLifetime,
                              validLifetime := a.validLifetime }),
              dnsServers := d.dns,
              dnsSearchList := d.domainSearchList.getD [],
              routers := [],
              ntpServers := d.ntpServers }, none) := by
  simp [GetNetConfFromPacketv6, hia]

/-- C2: v6 extraction fails with the MissingOption-class error when the
IA_NA option is absent; when IA_NA is present, the returned NetConf
contains exactly one AddrConf per bound address, in order, each with a
full /128 mask and with the preferred and valid lifetimes copied verbatim
from that address's own record. -/
theorem C2_v6_iana_addresses (d : DHCPv6Message) :
    (d.iana = none →
      GetNetConfFromPacketv6 d = (none, some NetbootError.noIANA) ∧
        NetbootError.noIANA.classify = ErrClass.missingOption) ∧
    (∀ ia, d.iana = some ia →
      (GetNetConfFromPacketv6 d).2 = none ∧
      ∃ nc, (GetNetConfFromPacketv6 d).1 = some nc ∧
        nc.addresses = ia.addresses.map (fun a =>
          { ipNet := { ip := a.ipv6Addr, mask := List.replicate 16 255 },
            preferredLifetime := a.preferredLifetime,
            validLifetime := a.validLifetime })) := by
  constructor
  · intro h
    exact ⟨by simp [GetNetConfFromPacketv6, h], rfl⟩
  · intro ia hia
    rw [getNetConfFromPacketv6_some d ia hia]
    refine ⟨rfl, _, rfl, ?_⟩
    simp [cidrMask128_eq]

theorem C2_witness :
    (GetNetConfFromPacketv6
      { iana := some { addresses :=
          [{ ipv6Addr := List.replicate 15 0 ++ [1], preferredLifetime := 100,
             validLifetime := 200 },
           { ipv6Addr := List.replicate 15 0 ++ [2], preferredLifetime := 300,
             validLifetime := 400 }] },
        dns := [], domainSearchList := none, ntpServers := [] }).2 = none ∧
    ∃ nc, (GetNetConfFromPacketv6
      { iana := some { addresses :=
          [{ ipv6Addr := List.replicate 15 0 ++ [1], preferredLifetime := 100,
             validLifetime := 200 },
           { ipv6Addr := List.replicate 15 0 ++ [2], preferredLifetime := 300,
             validLifetime := 400 }] },
        dns := [], domainSearchList := none, ntpServers := [] }).1 = some nc ∧
      nc.addresses =
        [{ ipv6Addr := List.replicate 15 0 ++ [1], preferredLifetime := 100,
           validLifetime := 200 },
         { ipv6Addr := List.replicate 15 0 ++ [2], preferredLifetime := 300,
           validLifetime := 400 }].map (fun a : IAAddress =>
          { ipNet := { ip := a.ipv6Addr, mask := List.replicate 16 255 },
            preferredLifetime := a.preferredLifetime,
            validLifetime := a.validLifetime }) :=
  (C2_v6_iana_addresses _).2 _ rfl

/-- C10: v6 extraction returns an error if and only if the IA_NA option
is absent; in particular a v6 reply carrying an IA_NA with zero bound
addresses and no DNS-server, domain-search or NTP options extracts
successfully into a NetConf all of whose fields are empty. -/
theorem C10_v6_error_iff_no_iana (d : DHCPv6Message) :
    ((GetNetConfFromPacketv6 d).2.isSome ↔ d.iana = none) ∧
    (d.iana = some { addresses := [] } → d.dns = [] →
      d.domainSearchList = none → d.ntpServers = [] →
      GetNetConfFromPacketv6 d =
        (some { addresses := [], dnsServers := [], dnsSearchList := [],
                routers := [], ntpServers := [] }, none)) := by
  constructor
  · cases h : d.iana with
    | none => simp [GetNetConfFromPacketv6, h]
    | some ia => simp [GetNetConfFromPacketv6, h]
  · intro hia hdns hdsl hntp
    simp [GetNetConfFromPacketv6, hia, hdns, hdsl, hntp]

/-- C1 as stated is false: `c1Cex` has a present non-zero YourIPAddress,
a subnet-mask option of non-zero prefix width and a lease-time option
carrying 3600, yet extraction does not succeed — it returns no NetConf
and an error. -/
theorem C1_counterexample :
    (c1Cex.yourIPAddr = some [192, 0, 2, 50] ∧
      ipEqual [192, 0, 2, 50] IPv4zero = false ∧
      c1Cex.subnetMask = some [255, 255, 255, 0] ∧
      (maskSize [255, 255, 255, 0]).1 ≠ 0 ∧
      c1Cex.leaseTime = some 3600) ∧
    (GetNetConfFromPacketv4 c1Cex).1 = none ∧
    (GetNetConfFromPacketv4 c1Cex).2 = some NetbootError.emptySearchList := by
  decide

/-- C1 amended: additionally assuming the domain-search option is not
present-with-zero-labels, a v4 reply with a present non-zero
YourIPAddress and a subnet-mask option of non-zero prefix width extracts
successfully into a NetConf with exactly one AddrConf — IP =
YourIPAddress, mask = the extracted mask, PreferredLifetime = 0,
ValidLifetime = the lease-time option's value (0 when absent) — and with
Routers and DNSServers exactly what the router and DNS accessors
return. -/
theorem C1_v4_success (d : DHCPv4) (ip m : List Nat)
    (hy : d.yourIPAddr = some ip) (hz : ipEqual ip IPv4zero = false)
    (hm : d.subnetMask = some m) (hones : (maskSize m).1 ≠ 0)
    (hds : d.domainSearch ≠ some []) :
    GetNetConfFromPacketv4 d =
      (some { addresses := [{ ipNet := { ip := ip, mask := m },
                              preferredLifetime := 0,
                              validLifetime := d.leaseTime.getD 0 }],
              dnsServers := d.dns,
              dnsSearchList := d.domainSearch.getD [],
              routers := d.routers,
              ntpServers := d.ntpServers }, none) := by
  cases hd : d.domainSearch with
  | none =>
    simp [GetNetConfFromPacketv4, DHCPv4.IPAddressLeaseTime, hy, hz, hm,
      hones, hd]
  | some labels =>
    have hne : labels ≠ [] := by
      intro h
      exact hds (h ▸ hd)
    simp [GetNetConfFromPacketv4, DHCPv4.IPAddressLeaseTime, hy, hz, hm,
      hones, hd, hne]

theorem C1_witness :
    GetNetConfFromPacketv4 specV4Reply =
      (some { addresses := [{ ipNet := { ip := [192, 0, 2, 50],
                                         mask := [255, 255, 255, 0] },
                              preferredLifetime := 0,
                              validLifetime := 3600 }],
              dnsServers := [[8, 8, 8, 8]],
              dnsSearchList := [],
              routers := [[192, 0, 2, 1]],
              ntpServers := [] }, none) :=
  C1_v4_success specV4Reply [192, 0, 2, 50] [255, 255, 255, 0]
    rfl (by decide) rfl (by decide) (by simp [specV4Reply])

/-- C8: extraction is atomic — for every v4 or v6 reply, the returned
pair holds a NetConf exactly when it holds no error: an error comes with
a nil NetConf, and a NetConf comes with a nil error. -/
theorem C8_extraction_atomic :
    (∀ d : DHCPv4, (GetNetConfFromPacketv4 d).1.isSome ↔
      (GetNetConfFromPacketv4 d).2 = none) ∧
    (∀ d : DHCPv6Message, (GetNetConfFromPacketv6 d).1.isSome ↔
      (GetNetConfFromPacketv6 d).2 = none) := by
  constructor
  · intro d
    obtain ⟨y, m, lt, dns, ds, r, ntp⟩ := d
    unfold GetNetConfFromPacketv4
    dsimp only
    repeat' split
    all_goals simp
  · intro d
    obtain ⟨ia, dns, dsl, ntp⟩ := d
    unfold GetNetConfFromPacketv6
    dsimp only
    repeat' split
    all_goals simp

/-- C3: the domain-search asymmetry. (1) A v4 reply passing the address
and netmask checks but whose domain-search option is present with zero
labels fails with the InvalidValue-class error. (2) A v4 reply without
the domain-search option never fails with that error, and on success its
DNSSearchList is empty. (3) A v6 reply is never rejected on account of
the domain-search option — its only error is the missing-IA_NA one — and
when the option is absent a successful extraction has an empty
DNSSearchList. -/
theorem C3_domain_search_asymmetry :
    (∀ (d : DHCPv4) (ip m : List Nat), d.yourIPAddr = some ip →
      ipEqual ip IPv4zero = false → d.subnetMask = some m →
      (maskSize m).1 ≠ 0 → d.domainSearch = some [] →
      GetNetConfFromPacketv4 d = (none, some NetbootError.emptySearchList) ∧
        NetbootError.emptySearchList.classify = ErrClass.invalidValue) ∧
    (∀ d : DHCPv4, d.domainSearch = none →
      (GetNetConfFromPacketv4 d).2 ≠ some NetbootError.emptySearchList ∧
      ∀ nc, (GetNetConfFromPacketv4 d).1 = some nc → nc.dnsSearchList = []) ∧
    (∀ d : DHCPv6Message,
      ((GetNetConfFromPacketv6 d).2 = none ∨
        (GetNetConfFromPacketv6 d).2 = some NetbootError.noIANA) ∧
      (d.domainSearchList = none →
        ∀ nc, (GetNetConfFromPacketv6 d).1 = some nc →
          nc.dnsSearchList = [])) := by
  refine ⟨?_, ?_, ?_⟩
  · intro d ip m hy hz hm hones hds
    exact ⟨by simp [GetNetConfFromPacketv4, hy, hz, hm, hones, hds], rfl⟩
  · intro d hds
    obtain ⟨y, m, lt, dns, ds, r, ntp⟩ := d
    simp only at hds
    subst hds
    unfold GetNetConfFromPacketv4
    dsimp only
    constructor
    · repeat' split
      all_goals simp
    · intro nc
      repeat' split
      all_goals simp
      rintro rfl
      rfl
  · intro d
    constructor
    · cases hia : d.iana with
      | none => simp [GetNetConfFromPacketv6, hia]
      | some ia => simp [getNetConfFromPacketv6_some d ia hia]
    · intro hdsl nc
      cases hia : d.iana with
      | none => simp [GetNetConfFromPacketv6, hia]
      | some ia =>
        rw [getNetConfFromPacketv6_some d ia hia]
        rintro ⟨rfl⟩
        simp [hdsl]

theorem C3_witness :
    (GetNetConfFromPacketv4 emptySearchReplyC3 =
      (none, some NetbootError.emptySearchList) ∧
      NetbootError.emptySearchList.classify = ErrClass.invalidValue) ∧
    ((GetNetConfFromPacketv4 noSearchReplyC3).2 ≠
        some NetbootError.emptySearchList ∧
      ∀ nc, (GetNetConfFromPacketv4 noSearchReplyC3).1 = some nc →
        nc.dnsSearchList = []) ∧
    (((GetNetConfFromPacketv6 noSearchReplyC3v6).2 = none ∨
        (GetNetConfFromPacketv6 noSearchReplyC3v6).2 =
          some NetbootError.noIANA) ∧
      (noSearchReplyC3v6.domainSearchList = none →
        ∀ nc, (GetNetConfFromPacketv6 noSearchReplyC3v6).1 = some nc →
          nc.dnsSearchList = [])) :=
  ⟨C3_domain_search_asymmetry.1 emptySearchReplyC3 [192, 0, 2, 50]
      [255, 255, 255, 0] rfl (by decide) rfl (by decide) rfl,
    C3_domain_search_asymmetry.2.1 noSearchReplyC3 rfl,
    C3_domain_search_asymmetry.2.2 noSearchReplyC3v6⟩

/-! ## Claims about `IfUp` -/

/-- C9 as stated is false: it asserts the already-up interface is
returned "for every timeout value", but with timeout 0 the loop guard
`time.Since(start) < timeout` fails before the first poll, so `IfUp`
returns the timeout error even though every lookup yields an interface
whose up flag is set. -/
theorem C9_counterexample :
    IfUp (fun _ => .ok { index := 1, flagUp := true }) 0 =
      .error IfUpError.timedOut ∧
    IfUp (fun _ => .ok { index := 1, flagUp := true }) 0 ≠
      .ok { index := 1, flagUp := true } := by
  refine ⟨rfl, ?_⟩
  intro h
  exact Except.noConfusion h

/-- C9 amended: for every interface lookup that succeeds with an
already-up interface at the first poll, and every timeout greater than
zero, `IfUp` returns that interface handle and no error on the first
poll — the conclusion constrains the lookup only at poll 0, so no later
poll and no sleep is involved. -/
theorem C9_ifup_immediate (lookup : Nat → Except String Iface)
    (iface : Iface) (timeout : Nat) (hl : lookup 0 = .ok iface)
    (hup : iface.flagUp = true) (ht : 0 < timeout) :
    IfUp lookup timeout = .ok iface := by
  unfold IfUp ifUpAux
  simp [hl, hup, ht]

theorem C9_witness :
    IfUp (fun _ => .ok { index := 7, flagUp := true }) 5000 =
      .ok { index := 7, flagUp := true } :=
  C9_ifup_immediate _ { index := 7, flagUp := true } 5000 rfl rfl
    (by decide)

/-! ## Claims about the client4 exchange -/

/-- One step of the receive loop, written out: the three filter checks in
order, continuing on any failed check. -/
theorem recvLoop_cons_some (xid mtype : Nat) (r : Msg)
    (rest : List (Option Msg)) (fin : ReadErrKind) :
    recvLoop xid mtype (some r :: rest) fin =
      (if r.transactionID ≠ xid then recvLoop xid mtype rest fin
       else if r.opCode ≠ OpcodeBootReply then recvLoop xid mtype rest fin
       else if mtype ≠ MessageTypeNone ∧ r.messageType ≠ mtype then
         recvLoop xid mtype rest fin
       else .ok r) := rfl

/-- The receive loop discards a parsed message that fails the filter and
continues with the remaining datagrams. -/
theorem recvLoop_skips_rejected (xid mtype : Nat) (r : Msg)
    (rest : List (Option Msg)) (fin : ReadErrKind)
    (hr : accept r xid mtype = false) :
    recvLoop xid mtype (some r :: rest) fin = recvLoop xid mtype rest fin := by
  rw [recvLoop_cons_some]
  by_cases h1 : r.transactionID = xid
  · rw [if_neg (not_not_intro h1)]
    by_cases h2 : r.opCode = OpcodeBootReply
    · rw [if_neg (not_not_intro h2)]
      have h3 : mtype ≠ MessageTypeNone ∧ r.messageType ≠ mtype := by
        by_contra hc
        rw [not_and_or, not_not, not_not] at hc
        have htrue : accept r xid mtype = true := by
          rcases hc with hc | hc <;> simp [accept, h1, h2, hc]
        rw [htrue] at hr
        exact Bool.noConfusion hr
      rw [if_pos h3]
    · rw [if_pos h2]
  · rw [if_pos h1]

/-- The receive loop ends with the read error when no delivered datagram
parses to a message passing the filter. -/
theorem recvLoop_no_match (xid mtype : Nat) (ds : List (Option Msg))
    (fin : ReadErrKind)
    (h : ∀ r : Msg, some r ∈ ds → accept r xid mtype = false) :
    recvLoop xid mtype ds fin = .error (.recvFailed fin) := by
  induction ds with
  | nil => rfl
  | cons d rest ih =>
    have hrest : ∀ r : Msg, some r ∈ rest → accept r xid mtype = false := by
      intro r hr
      exact h r (List.mem_cons_of_mem _ hr)
    cases d with
    | none => simpa [recvLoop] using ih hrest
    | some r =>
      rw [recvLoop_skips_rejected xid mtype r rest fin
        (h r (List.mem_cons_self _ _))]
      exact ih hrest

/-- On success the receive loop's result passed every check of the
filter: expected transaction identifier, the reply opcode, and the
expected message type unless the wildcard was expected. -/
theorem recvLoop_ok_filter (xid mtype : Nat) :
    ∀ (ds : List (Option Msg)) (fin : ReadErrKind) (r : Msg),
      recvLoop xid mtype ds fin = .ok r →
        r.transactionID = xid ∧ r.opCode = OpcodeBootReply ∧
          (mtype = MessageTypeNone ∨ r.messageType = mtype) := by
  intro ds
  induction ds with
  | nil =>
    intro fin r h
    exact Except.noConfusion h
  | cons d rest ih =>
    intro fin r h
    cases d with
    | none => exact ih fin r h
    | some r0 =>
      rw [recvLoop_cons_some] at h
      by_cases h1 : r0.transactionID ≠ xid
      · rw [if_pos h1] at h
        exact ih fin r h
      · rw [if_neg h1] at h
        by_cases h2 : r0.opCode ≠ OpcodeBootReply
        · rw [if_pos h2] at h
          exact ih fin r h
        · rw [if_neg h2] at h
          by_cases h3 : mtype ≠ MessageTypeNone ∧ r0.messageType ≠ mtype
          · rw [if_pos h3] at h
            exact ih fin r h
          · rw [if_neg h3] at h
            injection h with h
            subst h
            rw [not_and_or, not_not, not_not] at h3
            exact ⟨not_not.mp h1, not_not.mp h2, h3⟩

/-- When the receive loop terminates with an error, that error is the
wrapped final read error — never a parse failure. -/
theorem recvLoop_error_is_final (xid mtype : Nat) :
    ∀ (ds : List (Option Msg)) (fin : ReadErrKind) (e : ClientError),
      recvLoop xid mtype ds fin = .error e → e = .recvFailed fin := by
  intro ds
  induction ds with
  | nil =>
    intro fin e h
    injection h with h
    exact h.symm
  | cons d rest ih =>
    intro fin e h
    cases d with
    | none => exact ih fin e h
    | some r0 =>
      rw [recvLoop_cons_some] at h
      by_cases h1 : r0.transactionID ≠ xid
      · rw [if_pos h1] at h
        exact ih fin e h
      · rw [if_neg h1] at h
        by_cases h2 : r0.opCode ≠ OpcodeBootReply
        · rw [if_pos h2] at h
          exact ih fin e h
        · rw [if_neg h2] at h
          by_cases h3 : mtype ≠ MessageTypeNone ∧ r0.messageType ≠ mtype
          · rw [if_pos h3] at h
            exact ih fin e h
          · rw [if_neg h3] at h
            exact Except.noConfusion h

/-- C6: when Discover is built and sent, a matching Offer is received,
the Request is built and sent, but the transport never delivers a
datagram passing the Ack filter before the read deadline elapses,
`Exchange` returns exactly the three-message conversation
[Discover, Offer, Request] together with the wrapped deadline (Timeout)
error. -/
theorem C6_exchange_ack_timeout (env : ExchangeEnv)
    (discover offer request : Msg)
    (hsetup : env.setup = none)
    (hd : env.discoverResult = .ok discover)
    (hosend : env.offerSendPhase = none)
    (hoffer : recvLoop discover.transactionID MessageTypeOffer
      env.offerStream.datagrams env.offerStream.finalErr = .ok offer)
    (hreq : env.requestResult offer = .ok request)
    (hasend : env.ackSendPhase = none)
    (hnoack : ∀ r : Msg, some r ∈ env.ackStream.datagrams →
      accept r request.transactionID MessageTypeAck = false)
    (hdl : env.ackStream.finalErr = ReadErrKind.deadline) :
    Exchange env = ([discover, offer, request],
      some (ClientError.recvFailed ReadErrKind.deadline)) := by
  have hack : recvLoop request.transactionID MessageTypeAck
      env.ackStream.datagrams env.ackStream.finalErr =
      .error (.recvFailed ReadErrKind.deadline) := by
    rw [recvLoop_no_match _ _ _ _ hnoack, hdl]
  simp only [Exchange, sendReceive, hsetup, hd, hosend, hoffer, hreq,
    hasend, hack]

theorem C6_witness :
    Exchange c6Env =
      ([{ transactionID := 1, opCode := 1, messageType := MessageTypeDiscover },
        { transactionID := 1, opCode := 2, messageType := MessageTypeOffer },
        { transactionID := 1, opCode := 1, messageType := MessageTypeRequest }],
        some (ClientError.recvFailed ReadErrKind.deadline)) :=
  C6_exchange_ack_timeout c6Env
    { transactionID := 1, opCode := 1, messageType := MessageTypeDiscover }
    { transactionID := 1, opCode := 2, messageType := MessageTypeOffer }
    { transactionID := 1, opCode := 1, messageType := MessageTypeRequest }
    rfl rfl rfl rfl rfl rfl
    (by
      intro r hr
      simp only [c6Env, List.mem_cons, List.not_mem_nil, or_false,
        reduceCtorEq, false_or, Option.some.injEq] at hr
      rcases hr with hr | hr | hr <;> subst hr <;> decide)
    rfl

/-- C7: behaviour of the inner receive loop. (1) An unparsable datagram
is discarded and the loop continues. (2) A parsed message failing the
filter — foreign transaction identifier, non-reply opcode, or wrong
message type — is discarded and the loop continues. (3) A message the
loop returns passed every check: expected transaction identifier, reply
opcode, and the expected message type unless the wildcard was expected.
(4) The loop's terminal error is always the wrapped final read error —
a parse failure never becomes the terminal error. -/
theorem C7_recv_loop_filter :
    (∀ (xid mtype : Nat) (rest : List (Option Msg)) (fin : ReadErrKind),
      recvLoop xid mtype (none :: rest) fin = recvLoop xid mtype rest fin) ∧
    (∀ (xid mtype : Nat) (r : Msg) (rest : List (Option Msg))
      (fin : ReadErrKind), accept r xid mtype = false →
      recvLoop xid mtype (some r :: rest) fin = recvLoop xid mtype rest fin) ∧
    (∀ (xid mtype : Nat) (ds : List (Option Msg)) (fin : ReadErrKind)
      (r : Msg), recvLoop xid mtype ds fin = .ok r →
      r.transactionID = xid ∧ r.opCode = OpcodeBootReply ∧
        (mtype = MessageTypeNone ∨ r.messageType = mtype)) ∧
    (∀ (xid mtype : Nat) (ds : List (Option Msg)) (fin : ReadErrKind)
      (e : ClientError), recvLoop xid mtype ds fin = .error e →
      e = .recvFailed fin) :=
  ⟨fun _ _ _ _ => rfl,
   fun xid mtype r rest fin hr =>
     recvLoop_skips_rejected xid mtype r rest fin hr,
   fun xid mtype ds fin r h => recvLoop_ok_filter xid mtype ds fin r h,
   fun xid mtype ds fin e h => recvLoop_error_is_final xid mtype ds fin e h⟩

theorem C7_witness :
    (recvLoop 1 5 (none :: [some { transactionID := 1, opCode := 2, messageType := 5 }]) ReadErrKind.deadline =
      recvLoop 1 5 [some { transactionID := 1, opCode := 2, messageType := 5 }] ReadErrKind.deadline) ∧
    (recvLoop 1 5 (some { transactionID := 9, opCode := 2, messageType := 5 } :: []) ReadErrKind.deadline =
      recvLoop 1 5 [] ReadErrKind.deadline) ∧
    (({ transactionID := 1, opCode := 2, messageType := 5 } : Msg).transactionID = 1 ∧
      ({ transactionID := 1, opCode := 2, messageType := 5 } : Msg).opCode = OpcodeBootReply ∧
      ((5 : Nat) = MessageTypeNone ∨
        ({ transactionID := 1, opCode := 2, messageType := 5 } : Msg).messageType = 5)) ∧
    ClientError.recvFailed ReadErrKind.deadline =
      ClientError.recvFailed ReadErrKind.deadline :=
  ⟨C7_recv_loop_filter.1 1 5 _ ReadErrKind.deadline,
   C7_recv_loop_filter.2.1 1 5 { transactionID := 9, opCode := 2, messageType := 5 }
     [] ReadErrKind.deadline (by decide),
   C7_recv_loop_filter.2.2.1 1 5
     [some { transactionID := 1, opCode := 2, messageType := 5 }]
     ReadErrKind.deadline { transactionID := 1, opCode := 2, messageType := 5 } rfl,
   C7_recv_loop_filter.2.2.2 1 5 [none] ReadErrKind.deadline
     (ClientError.recvFailed ReadErrKind.deadline) rfl⟩

theorem C10_witness :
    ((GetNetConfFromPacketv6
      { iana := some { addresses := [] }, dns := [],
        domainSearchList := none, ntpServers := [] }).2.isSome ↔
      ({ iana := some { addresses := [] }, dns := [],
         domainSearchList := none, ntpServers := [] } : DHCPv6Message).iana = none) ∧
    GetNetConfFromPacketv6
      { iana := some { addresses := [] }, dns := [],
        domainSearchList := none, ntpServers := [] } =
      (some { addresses := [], dnsServers := [], dnsSearchList := [],
              routers := [], ntpServers := [] }, none) :=
  ⟨(C10_v6_error_iff_no_iana _).1,
    (C10_v6_error_iff_no_iana _).2 rfl rfl rfl rfl⟩

end DhcpSpec
